import Mathlib

/-!
Verification development for the imapsync-bulk-launcher repository
(src/imapsync-status.py and src/imapsync-launcher.py).

The Python code is shallowly embedded: strings are manipulated as `List Char`
(a line is modelled without a trailing newline; Python's `$` anchor matches
just before a final newline, so this is transparent for the regexes involved),
Python `int` is `Int`/`Nat`, Python `float` arithmetic is modelled by exact
rationals `ℚ`, and code that can raise an exception returns `Except PyErr _`.
The fixed regular expressions of the source are compiled by hand into
executable search functions whose leftmost-match/greedy semantics is worked
out in the comments next to each definition.
-/

namespace ImapsyncModel

/-- The Python exception kinds that the modelled code can raise. -/
inductive PyErr where
  | zeroDivisionError
  | typeError
  | keyError (k : String)
  | attributeError
  | valueError
  | calledProcessError
  | indexError
  | exception (msg : String)
deriving DecidableEq, Repr

/-- Character class `[0-9]` of the source regexes. -/
def isDigitChar (c : Char) : Bool :=
  '0' ≤ c && c ≤ '9'

/-- Character class `[1-9]` of the pid regex in `parse_pid_file`. -/
def isNonzeroDigit (c : Char) : Bool :=
  '1' ≤ c && c ≤ '9'

/-- Decimal value of a digit string, as `int()` applied to a regex group. -/
def digitsToNat (ds : List Char) : Nat :=
  ds.foldl (fun a c => a * 10 + (c.toNat - '0'.toNat)) 0

/-- Split a character list on newline characters (the lines of a Python
string as seen by `re.MULTILINE` anchors). -/
def splitOnNl : List Char → List (List Char)
  | [] => [[]]
  | c :: rest =>
    if c = '\n' then
      [] :: splitOnNl rest
    else
      match splitOnNl rest with
      | [] => [[c]]
      | l :: ls => (c :: l) :: ls

/-- Occurrence test for a pattern at position `i` of `s`. -/
def occursAt (s pat : List Char) (i : Nat) : Bool :=
  decide ((s.drop i).take pat.length = pat)

/-- Index of the leftmost occurrence of `pat` in `s` (the start position that
`re.search` commits to for a pattern beginning with a literal). -/
def firstIndexOf (s pat : List Char) : Option Nat :=
  (List.range (s.length + 1)).find? (fun i => occursAt s pat i)

/-- Search for `([0-9]+)\/([0-9]+) msgs left$` in a single line
(`get_sync_status`, and groups 2/3 of `get_sync_progress`).
Because the pattern is anchored at the end of the line and `/` and space are
not digits, the match is unique: the line must end with `" msgs left"`,
preceded by the (maximal, nonempty) digit run of the second group, preceded by
`/`, preceded by the (maximal, nonempty) digit run of the first group.
Returns `(first group, second group)` = (messages left, total messages). -/
def countsSearch (line : List Char) : Option (Nat × Nat) :=
  let r := line.reverse
  if decide (r.take 10 = (" msgs left".data.reverse)) then
    let p2 := (r.drop 10).span isDigitChar
    match p2.1, p2.2 with
    | [], _ => none
    | _ :: _, '/' :: r3 =>
      let p1 := r3.span isDigitChar
      match p1.1 with
      | [] => none
      | _ :: _ => some (digitsToNat p1.1.reverse, digitsToNat p2.1.reverse)
    | _ :: _, _ => none
  else none

/-- `get_sync_status` of src/imapsync-status.py (lines 231-235): a line that
matches the counts pattern is `"syncing"`, anything else is `"running"`. -/
def get_sync_status (line : List Char) : String :=
  if (countsSearch line).isSome then "syncing" else "running"

/-- Shape test for the datetime group
`([0-9]{4}-[0-9]{2}-[0-9]{2} [0-9]{2}:[0-9]{2}:[0-9]{2})` at position `p`. -/
def dtShapeAt (s : List Char) (p : Nat) : Bool :=
  match s.drop p with
  | y1 :: y2 :: y3 :: y4 :: '-' :: m1 :: m2 :: '-' :: d1 :: d2 :: ' ' ::
      h1 :: h2 :: ':' :: n1 :: n2 :: ':' :: s1 :: s2 :: _ =>
    isDigitChar y1 && isDigitChar y2 && isDigitChar y3 && isDigitChar y4 &&
    isDigitChar m1 && isDigitChar m2 && isDigitChar d1 && isDigitChar d2 &&
    isDigitChar h1 && isDigitChar h2 && isDigitChar n1 && isDigitChar n2 &&
    isDigitChar s1 && isDigitChar s2
  | _ => false

/-- Largest feasible start position of the datetime group: the first `.+` of
the ETA regex is greedy, so the datetime is captured at the largest `p` with
`lo ≤ p` (at least one `.+` character after the literal `"ETA: "`),
a space immediately before it (the literal space in `ETA: .+ (`),
and `p + 20 ≤ spaceLimit` (room for the second `.+`, which is nonempty,
between the datetime and the space preceding the first counts group). -/
def lastDatetimePos (s : List Char) (lo spaceLimit : Nat) : Option Nat :=
  (List.range spaceLimit).foldl
    (fun acc p =>
      if lo ≤ p && p + 20 ≤ spaceLimit &&
          (match s.get? (p - 1) with | some ' ' => true | _ => false) &&
          dtShapeAt s p
      then some p else acc)
    none

/-- Search for the `get_sync_progress` regex (line 239 of the source):
`ETA: .+ ([0-9]{4}-[0-9]{2}-[0-9]{2} [0-9]{2}:[0-9]{2}:[0-9]{2}).+ ([0-9]+)\/([0-9]+) msgs left$`.
The end-anchored tail forces the two counts groups exactly as in
`countsSearch`, additionally preceded by a literal space; the datetime group
is then captured greedily (see `lastDatetimePos`), and the match as a whole
exists iff some occurrence of `"ETA: "` lies at least 7 characters before the
datetime start (room for `"ETA: "` plus a nonempty `.+`); `re.search` commits
to the leftmost such occurrence, which does not affect the captured groups.
Returns (datetime group, messages left, total messages). -/
def etaSearch (line : List Char) : Option (List Char × Nat × Nat) :=
  let r := line.reverse
  if decide (r.take 10 = (" msgs left".data.reverse)) then
    let p2 := (r.drop 10).span isDigitChar
    match p2.1, p2.2 with
    | [], _ => none
    | _ :: _, '/' :: r3 =>
      let p1 := r3.span isDigitChar
      match p1.1, p1.2 with
      | [], _ => none
      | _ :: _, ' ' :: _ =>
        -- position (from the start) of the space before the first group
        let spacePos := line.length - 12 - p2.1.length - p1.1.length
        match firstIndexOf line ("ETA: ".data) with
        | none => none
        | some i0 =>
          match lastDatetimePos line (i0 + 7) spacePos with
          | none => none
          | some p =>
            some ((line.drop p).take 19,
                  digitsToNat p1.1.reverse, digitsToNat p2.1.reverse)
      | _ :: _, _ => none
    | _ :: _, _ => none
  else none

/-- The result of `datetime.datetime.strptime(_, '%Y-%m-%d %H:%M:%S')`. -/
structure PyDateTime where
  year : Nat
  month : Nat
  day : Nat
  hour : Nat
  minute : Nat
  second : Nat
deriving DecidableEq, Repr

/-- Gregorian leap-year rule, as used by `datetime`. -/
def isLeapYear (y : Nat) : Bool :=
  (y % 4 = 0 && y % 100 ≠ 0) || y % 400 = 0

/-- Number of days of month `m` in year `y`. -/
def daysInMonth (y m : Nat) : Nat :=
  if m = 2 then (if isLeapYear y then 29 else 28)
  else if m = 4 || m = 6 || m = 9 || m = 11 then 30
  else 31

/-- `datetime.datetime.strptime(s, '%Y-%m-%d %H:%M:%S')` on a string of the
regex-guaranteed shape: `none` models the `ValueError` that Python raises for
an out-of-range field (month 0 or 13, day 0 or beyond the month length,
hour 24, year 0, ...). -/
def strptime (s : List Char) : Option PyDateTime :=
  match s with
  | [y1, y2, y3, y4, '-', m1, m2, '-', d1, d2, ' ',
     h1, h2, ':', n1, n2, ':', s1, s2] =>
    if (isDigitChar y1 && isDigitChar y2 && isDigitChar y3 && isDigitChar y4 &&
        isDigitChar m1 && isDigitChar m2 && isDigitChar d1 && isDigitChar d2 &&
        isDigitChar h1 && isDigitChar h2 && isDigitChar n1 && isDigitChar n2 &&
        isDigitChar s1 && isDigitChar s2) then
      let y := digitsToNat [y1, y2, y3, y4]
      let mo := digitsToNat [m1, m2]
      let d := digitsToNat [d1, d2]
      let h := digitsToNat [h1, h2]
      let mi := digitsToNat [n1, n2]
      let se := digitsToNat [s1, s2]
      if 1 ≤ y && 1 ≤ mo && mo ≤ 12 && 1 ≤ d && d ≤ daysInMonth y mo &&
          h ≤ 23 && mi ≤ 59 && se ≤ 59 then
        some ⟨y, mo, d, h, mi, se⟩
      else none
    else none
  | _ => none

/-- Days before January 1st of year `y` in the proleptic Gregorian calendar
(year 1, month 1, day 1 has ordinal 1, as in Python `datetime.toordinal`). -/
def daysBeforeYear (y : Nat) : Nat :=
  let p := y - 1
  365 * p + p / 4 - p / 100 + p / 400

/-- Days before the first of month `m` within year `y`. -/
def daysBeforeMonth (y m : Nat) : Nat :=
  (List.range m).foldl (fun a k => if 1 ≤ k then a + daysInMonth y k else a) 0

/-- Proleptic-Gregorian ordinal of a date (Python `datetime.toordinal`). -/
def toOrdinal (dt : PyDateTime) : Nat :=
  daysBeforeYear dt.year + daysBeforeMonth dt.year dt.month + dt.day

/-- Model of `datetime.timestamp()`: seconds since the calendar origin.
Python's value is shifted by the epoch and the local UTC offset, a constant,
so comparisons between timestamps (all the code does with them) agree. -/
def toTimestamp (dt : PyDateTime) : Nat :=
  (toOrdinal dt - 1) * 86400 + dt.hour * 3600 + dt.minute * 60 + dt.second

/-- Zero-padded 2-digit decimal rendering. -/
def pad2 (n : Nat) : String :=
  if n < 10 then "0" ++ toString n else toString n

/-- Zero-padded 4-digit decimal rendering. -/
def pad4 (n : Nat) : String :=
  if n < 10 then "000" ++ toString n
  else if n < 100 then "00" ++ toString n
  else if n < 1000 then "0" ++ toString n
  else toString n

/-- Weekday name of a date (`%A`); ordinal 1 (0001-01-01) is a Monday. -/
def weekdayName (dt : PyDateTime) : String :=
  match (toOrdinal dt - 1) % 7 with
  | 0 => "Monday"
  | 1 => "Tuesday"
  | 2 => "Wednesday"
  | 3 => "Thursday"
  | 4 => "Friday"
  | 5 => "Saturday"
  | _ => "Sunday"

/-- `strftime('%A %Y-%m-%d %H:%M:%S')` of a `datetime`. -/
def strftimeA (dt : PyDateTime) : String :=
  weekdayName dt ++ " " ++ pad4 dt.year ++ "-" ++ pad2 dt.month ++ "-" ++
    pad2 dt.day ++ " " ++ pad2 dt.hour ++ ":" ++ pad2 dt.minute ++ ":" ++
    pad2 dt.second

/-- The dictionary returned by `get_sync_progress` when the ETA regex matches.
Python floats are modelled by exact rationals. -/
structure SyncProgress where
  eta : PyDateTime
  transferred_messages : Int
  total_messages : Nat
  left_messages : Nat
  current_percentage : ℚ
deriving DecidableEq, Repr

/-- `get_sync_progress` of src/imapsync-status.py (lines 238-259).
When the ETA regex matches, the code computes
`transferred = total - left` and then divides by `total` with no zero guard
(the `ZeroDivisionError` of line 245 is raised before `strptime` runs);
a datetime whose fields are out of range raises `ValueError` in `strptime`
(line 249).  When the regex does not match the function returns `None`. -/
def get_sync_progress (line : List Char) : Except PyErr (Option SyncProgress) :=
  match etaSearch line with
  | none => .ok none
  | some (etaStr, leftN, totalN) =>
    let transferred : Int := (totalN : Int) - (leftN : Int)
    if totalN = 0 then .error .zeroDivisionError
    else
      let pct : ℚ := (transferred : ℚ) / (totalN : ℚ) * 100
      match strptime etaStr with
      | none => .error .valueError
      | some dt =>
        .ok (some { eta := dt, transferred_messages := transferred,
                    total_messages := totalN, left_messages := leftN,
                    current_percentage := pct })

/-- The dictionary returned by `parse_pid_file`. -/
structure PidData where
  user : String
  pid : String
  log_file_path : String
deriving DecidableEq, Repr

/-- Search for `imapsync-(.+).pid$` in the marker file path (line 191).
`re.search` commits to the first occurrence of the literal `"imapsync-"`;
the greedy group then runs to 4 characters before the end, the unescaped `.`
matches one arbitrary character, and the path must end in `"pid"` with at
least one group character available. -/
def userSearch (path : List Char) : Option (List Char) :=
  match firstIndexOf path ("imapsync-".data) with
  | none => none
  | some i =>
    if i + 14 ≤ path.length &&
        decide (path.drop (path.length - 3) = "pid".data) then
      some ((path.drop (i + 9)).take (path.length - 4 - (i + 9)))
    else none

/-- Search for `^[1-9]+$` with `re.MULTILINE` in the marker contents
(line 192): the first line made entirely of the digits 1-9.  Note that this
cannot match any process id whose decimal form contains a 0 digit. -/
def pidSearch (data : List Char) : Option (List Char) :=
  (splitOnNl data).find? (fun l => !l.isEmpty && l.all isNonzeroDigit)

/-- Search for `.+.txt$` with `re.MULTILINE` in the marker contents
(line 193): the first line of length at least 5 ending in `"txt"` (the two
unescaped/any `.` positions make the suffix `".txt"` unnecessary). -/
def logSearch (data : List Char) : Option (List Char) :=
  (splitOnNl data).find?
    (fun l => 5 ≤ l.length && decide (l.drop (l.length - 3) = "txt".data))

/-- `parse_pid_file` of src/imapsync-status.py (lines 188-200).  The three
`re.search` calls produce `Option`s; the subsequent `.group()` accesses (in
source order: user, pid, log path) raise `AttributeError` on a failed search
(`'NoneType' object has no attribute 'group'`). -/
def parse_pid_file (file_path data : List Char) : Except PyErr PidData :=
  match userSearch file_path with
  | none => .error .attributeError
  | some u =>
    match pidSearch data with
    | none => .error .attributeError
    | some p =>
      match logSearch data with
      | none => .error .attributeError
      | some l =>
        .ok { user := ⟨u⟩, pid := ⟨p⟩, log_file_path := ⟨l⟩ }

/-- A file system fragment: an association of paths to file contents. -/
def FileSys := List (String × String)

/-- Lookup of a path in the modelled file system. -/
def lookupFs (fs : FileSys) (path : String) : Option String :=
  match fs.find? (fun e => e.1 == path) with
  | some e => some e.2
  | none => none

/-- The logical last line of a file's contents: what `tail -1` prints, with
the trailing newline stripped (Python's `$` anchor matches just before a
trailing newline, so the strip is transparent to the regexes above). -/
def lastLine (content : List Char) : List Char :=
  let c := if content.getLast? = some '\n' then content.dropLast else content
  match (splitOnNl c).getLast? with
  | some l => l
  | none => []

/-- `get_last_line` of src/imapsync-status.py (lines 225-228):
`subprocess.check_output(['tail', '-1', path])`.  On a missing (or unreadable)
file `tail` exits nonzero and `check_output` raises
`subprocess.CalledProcessError`. -/
def get_last_line (fs : FileSys) (path : String) : Except PyErr (List Char) :=
  match lookupFs fs path with
  | some content => .ok (lastLine content.data)
  | none => .error .calledProcessError

/-- A `rich` progress task as the loop uses it: the `started` flag
(`start_task`), the `total`, `completed` and custom `eta` fields.  A fresh
task (line 369) has `started := false`, `total := none`, `completed := 0`,
`eta := "?"`. -/
structure RichTask where
  started : Bool
  total : Option Int
  completed : Int
  eta : String
deriving DecidableEq, Repr

/-- The fields of the overall-status and overall-progress display that the
loop body rewrites (lines 470-483): the fleet snapshot.  Initial values
(lines 328-335 and 393-397): `running_jobs = 0`, `idle_users = users_count`,
`max_eta = "?"`, `overall_total = none`, `overall_completed = 0`. -/
structure Snapshot where
  running_jobs : Nat
  idle_users : Int
  max_eta : String
  overall_total : Option Int
  overall_completed : Int
deriving DecidableEq, Repr

/-- The mutable state the steady-state loop carries across ticks: the
`jobs` dictionary (username to task index), the task list behind
`job_progress`, and the displayed snapshot. -/
structure LoopState where
  jobs : List (String × Nat)
  tasks : List RichTask
  snap : Snapshot
deriving DecidableEq, Repr

/-- Python `dict` lookup in the `jobs` dictionary. -/
def lookupJobs (jobs : List (String × Nat)) (k : String) : Option Nat :=
  match jobs.find? (fun e => e.1 == k) with
  | some e => some e.2
  | none => none

/-- Line 433, `if user in jobs['user']:` — the subscript `jobs['user']`
raises `KeyError('user')` unless a user is literally named `"user"`, and in
that case the stored value is a task index (an `int`), so the membership test
`user in <int>` raises `TypeError` instead.  The expression always raises. -/
def jobsUserMembership (jobs : List (String × Nat)) :
    Except PyErr Bool :=
  match lookupJobs jobs "user" with
  | none => .error (.keyError "user")
  | some _ => .error .typeError

/-- Line 427, `sync_progress['transferred_messages']` — subscripting the
`None` returned by a failed `get_sync_progress` raises `TypeError`
(`'NoneType' object is not subscriptable`). -/
def subscriptProgress (p : Option SyncProgress) : Except PyErr SyncProgress :=
  match p with
  | some v => .ok v
  | none => .error .typeError

/-- Lines 434-438: `start_task` then `update(total=..., completed=...,
eta=...)` on the task at index `tid`. -/
def startUpdateTask (tasks : List RichTask) (tid : Nat) (total : Nat)
    (transferred : Int) (eta_string : String) : List RichTask :=
  tasks.set tid { started := true, total := some (total : Int),
                  completed := transferred, eta := eta_string }

/-- The fold of lines 453-464 over `job_progress.tasks`:
`(overall_total, overall_completed, running_tasks)`. -/
def foldTasks (tasks : List RichTask) : Int × Int × Nat :=
  tasks.foldl
    (fun acc t =>
      let acc :=
        match t.total with
        | some tot => (acc.1 + tot, acc.2.1 + t.completed, acc.2.2)
        | none => acc
      if t.started then (acc.1, acc.2.1, acc.2.2 + 1) else acc)
    (0, 0, 0)

/-- Lines 453-483: recompute the totals of the snapshot from the task list,
`idle_users = users_count - running_tasks`, and render the tick's maximum
ETA (`'?'` while it is `None`). -/
def foldSnapshot (users_count : Nat) (tasks : List RichTask)
    (max_eta : Option PyDateTime) : Snapshot :=
  let f := foldTasks tasks
  { running_jobs := f.2.2
    idle_users := (users_count : Int) - (f.2.2 : Int)
    max_eta := match max_eta with
               | some dt => strftimeA dt
               | none => "?"
    overall_total := some f.1
    overall_completed := f.2.1 }

/-- One iteration of `for pid_file in pid_files:` (lines 418-483).  The
iteration state is the loop state plus the tick-local `max_eta`.  Any raised
exception propagates out of `handle` (there is no `try` in the loop) and
terminates the process. -/
def tickStep (users_count : Nat) (fs : FileSys)
    (st : LoopState × Option PyDateTime) (pid_file : String × String) :
    Except PyErr (LoopState × Option PyDateTime) :=
  let ls := st.1
  let max_eta := st.2
  match parse_pid_file pid_file.1.data pid_file.2.data with
  | .error e => .error e
  | .ok log_data =>
    match get_last_line fs log_data.log_file_path with
    | .error e => .error e
    | .ok last_line =>
      let sync_status := get_sync_status last_line
      let branch : Except PyErr
          (List (String × Nat) × List RichTask × Option PyDateTime) :=
        if sync_status = "syncing" then
          match get_sync_progress last_line with
          | .error e => .error e
          | .ok sync_progress =>
            match subscriptProgress sync_progress with
            | .error e => .error e
            | .ok sp =>
              let transferred := sp.transferred_messages
              let total := sp.total_messages
              let eta := sp.eta
              let eta_string := strftimeA eta
              match jobsUserMembership ls.jobs with
              | .error e => .error e
              | .ok mem =>
                -- Everything below in this branch is unreachable: the
                -- membership expression above always raises.  Lines 434-438
                -- (task update) and 447-451 (maximum-ETA tracking) are
                -- transcribed anyway; the `else` arm of lines 439-445 would
                -- create a task under the stale loop variable `username`
                -- left over from start-up and is modelled as leaving the
                -- state unchanged.
                if mem then
                  let tid := (lookupJobs ls.jobs log_data.user).getD 0
                  let tasks :=
                    startUpdateTask ls.tasks tid total transferred eta_string
                  let eta_timestamp := toTimestamp eta
                  let max_eta' :=
                    match max_eta with
                    | none => some eta
                    | some me =>
                      if eta_timestamp > toTimestamp me then some eta
                      else max_eta
                  .ok (ls.jobs, tasks, max_eta')
                else
                  .ok (ls.jobs, ls.tasks, max_eta)
        else .ok (ls.jobs, ls.tasks, max_eta)
      match branch with
      | .error e => .error e
      | .ok b =>
        .ok ({ jobs := b.1, tasks := b.2.1,
               snap := foldSnapshot users_count b.2.1 b.2.2 }, b.2.2)

/-- The whole `for pid_file in pid_files:` loop. -/
def tickGo (users_count : Nat) (fs : FileSys) :
    List (String × String) → LoopState × Option PyDateTime →
    Except PyErr (LoopState × Option PyDateTime)
  | [], st => .ok st
  | pf :: rest, st =>
    match tickStep users_count fs st pf with
    | .error e => .error e
    | .ok st' => tickGo users_count fs rest st'

/-- One tick of the steady-state loop (lines 409-483): reset the tick-local
maximum ETA (lines 412-414) and process every discovered marker file, given
as `(path, contents)` pairs.  An exception anywhere terminates the loop. -/
def tick (users_count : Nat) (pid_files : List (String × String))
    (fs : FileSys) (ls : LoopState) : Except PyErr LoopState :=
  match tickGo users_count fs pid_files (ls, none) with
  | .ok st => .ok st.1
  | .error e => .error e

/-- A user record as built by `parse_csv_file` (both variants build the same
eleven-field dictionary from one CSV row). -/
structure UserRec where
  source_user : String
  source_host : String
  source_port : String
  source_ssl : Bool
  source_password : String
  dest_user : String
  dest_host : String
  dest_port : String
  dest_ssl : Bool
  dest_password : String
  extra_params : String
deriving DecidableEq, Repr

/-- Python `str.lower()` restricted to ASCII letters (the only characters
`value2bool` comparisons can distinguish). -/
def asciiLower (s : String) : String :=
  ⟨s.data.map (fun c => if 'A' ≤ c && c ≤ 'Z' then Char.ofNat (c.toNat + 32) else c)⟩

/-- `value2bool` of src/imapsync-status.py (lines 170-185).  CSV fields are
strings, so the non-string sentinels `True, 1, False, 0` of the two Python
lists can never compare equal and are dropped; the string is lowercased
before membership is tested, and an unknown value raises `Exception`. -/
def status_value2bool (value : String) : Except PyErr Bool :=
  let true_values := ["yes", "on", "1", "true", "True"]
  let false_values := ["no", "off", "0", "false", "False"]
  let v := asciiLower value
  if v ∈ true_values then .ok true
  else if v ∈ false_values then .ok false
  else .error (.exception ("Unknown value given: " ++ v))

/-- `value2bool` of src/imapsync-launcher.py (lines 184-199); textually the
same function as the status tool's copy. -/
def launcher_value2bool (value : String) : Except PyErr Bool :=
  let true_values := ["yes", "on", "1", "true", "True"]
  let false_values := ["no", "off", "0", "false", "False"]
  let v := asciiLower value
  if v ∈ true_values then .ok true
  else if v ∈ false_values then .ok false
  else .error (.exception ("Unknown value given: " ++ v))

/-- `row[i]` with Python's `IndexError` on a short row. -/
def rowGet (row : List String) (i : Nat) : Except PyErr String :=
  match row.get? i with
  | some v => .ok v
  | none => .error .indexError

/-- Python `dict` assignment `users[k] = v`: replace in place if the key is
present (insertion order preserved), else append. -/
def pyDictInsert (users : List (String × UserRec)) (k : String) (v : UserRec) :
    List (String × UserRec) :=
  if users.any (fun e => e.1 == k) then
    users.map (fun e => if e.1 == k then (k, v) else e)
  else users ++ [(k, v)]

/-- Strict lexicographic comparison of character lists by code point —
Python's `<` on `str`. -/
def lexLt : List Char → List Char → Bool
  | [], [] => false
  | [], _ :: _ => true
  | _ :: _, [] => false
  | a :: as, b :: bs =>
    if a < b then true
    else if b < a then false
    else lexLt as bs

/-- Python string comparison (by code points). -/
def strLt (a b : String) : Bool :=
  lexLt a.data b.data

/-- Insertion into a key-sorted association list (used to model
`sorted(users.items())`, which, for the unique keys a dict has, orders the
items by key). -/
def insertByKey (e : String × UserRec) :
    List (String × UserRec) → List (String × UserRec)
  | [] => [e]
  | x :: xs => if strLt e.1 x.1 then e :: x :: xs else x :: insertByKey e xs

/-- `dict(sorted(users.items()))` (line 165 / line 179): the items sorted by
key. -/
def sortByKey (l : List (String × UserRec)) : List (String × UserRec) :=
  l.foldl (fun acc e => insertByKey e acc) []

/-- The per-row field extraction of `parse_csv_file` in
src/imapsync-status.py (lines 135-159): the eleven subscripts in source
order, the two `value2bool` coercions, and the built user dictionary keyed
by `source_user`. -/
def status_parse_row (row : List String) :
    Except PyErr (String × UserRec) := do
  let source_user ← rowGet row 0
  let source_host ← rowGet row 1
  let source_port ← rowGet row 2
  let source_ssl ← status_value2bool (← rowGet row 3)
  let source_password ← rowGet row 4
  let dest_user ← rowGet row 5
  let dest_host ← rowGet row 6
  let dest_port ← rowGet row 7
  let dest_ssl ← status_value2bool (← rowGet row 8)
  let dest_password ← rowGet row 9
  let extra_params ← rowGet row 10
  let user : UserRec :=
    { source_user := source_user, source_host := source_host,
      source_port := source_port, source_ssl := source_ssl,
      source_password := source_password, dest_user := dest_user,
      dest_host := dest_host, dest_port := dest_port,
      dest_ssl := dest_ssl, dest_password := dest_password,
      extra_params := extra_params }
  pure (source_user, user)

/-- The row loop of `parse_csv_file` in src/imapsync-status.py
(lines 129-162): thread the 1-based line counter and the `users` dict; a
short row raises `IndexError`, an unrecognized SSL field raises via
`value2bool`. -/
def status_parse_rows (skip_first_line : Bool) :
    List (List String) → Nat → List (String × UserRec) →
    Except PyErr (List (String × UserRec))
  | [], _, users => .ok users
  | row :: rest, current_line_n, users =>
    let n := current_line_n + 1
    if skip_first_line && n = 1 then
      status_parse_rows skip_first_line rest n users
    else
      match status_parse_row row with
      | .error e => .error e
      | .ok su =>
        status_parse_rows skip_first_line rest n (pyDictInsert users su.1 su.2)

/-- `parse_csv_file` of src/imapsync-status.py (lines 123-167), on the rows
already produced by `csv.reader` with delimiter `;`. -/
def status_parse_csv_file (rows : List (List String))
    (skip_first_line : Bool) : Except PyErr (List (String × UserRec)) :=
  match status_parse_rows skip_first_line rows 0 [] with
  | .ok users => .ok (sortByKey users)
  | .error e => .error e

/-- The per-row field extraction of `parse_csv_file` in
src/imapsync-launcher.py (lines 149-173); textually the same as the status
tool's copy. -/
def launcher_parse_row (row : List String) :
    Except PyErr (String × UserRec) := do
  let source_user ← rowGet row 0
  let source_host ← rowGet row 1
  let source_port ← rowGet row 2
  let source_ssl ← launcher_value2bool (← rowGet row 3)
  let source_password ← rowGet row 4
  let dest_user ← rowGet row 5
  let dest_host ← rowGet row 6
  let dest_port ← rowGet row 7
  let dest_ssl ← launcher_value2bool (← rowGet row 8)
  let dest_password ← rowGet row 9
  let extra_params ← rowGet row 10
  let user : UserRec :=
    { source_user := source_user, source_host := source_host,
      source_port := source_port, source_ssl := source_ssl,
      source_password := source_password, dest_user := dest_user,
      dest_host := dest_host, dest_port := dest_port,
      dest_ssl := dest_ssl, dest_password := dest_password,
      extra_params := extra_params }
  pure (source_user, user)

/-- The row loop of `parse_csv_file` in src/imapsync-launcher.py
(lines 143-176); textually the same loop as the status tool's copy. -/
def launcher_parse_rows (skip_first_line : Bool) :
    List (List String) → Nat → List (String × UserRec) →
    Except PyErr (List (String × UserRec))
  | [], _, users => .ok users
  | row :: rest, current_line_n, users =>
    let n := current_line_n + 1
    if skip_first_line && n = 1 then
      launcher_parse_rows skip_first_line rest n users
    else
      match launcher_parse_row row with
      | .error e => .error e
      | .ok su =>
        launcher_parse_rows skip_first_line rest n (pyDictInsert users su.1 su.2)

/-- `parse_csv_file` of src/imapsync-launcher.py (lines 137-181). -/
def launcher_parse_csv_file (rows : List (List String))
    (skip_first_line : Bool) : Except PyErr (List (String × UserRec)) :=
  match launcher_parse_rows skip_first_line rows 0 [] with
  | .ok users => .ok (sortByKey users)
  | .error e => .error e

/-- Three demonstration CSV rows: an out-of-order user and a duplicated
`source_user` key (the second `alice` row must win), with the four SSL
spellings `yes`, `no`, `TRUE`, `0`. -/
def demoRows : List (List String) :=
  [["bob", "h1", "993", "yes", "pw1", "bob2", "h2", "143", "no", "pw2", ""],
   ["alice", "old", "993", "true", "old", "old2", "old", "993", "false", "old", "old"],
   ["alice", "a1", "993", "TRUE", "pa1", "alice2", "a2", "993", "0", "pa2", "-x"]]

/-- The user map both parsers must produce from `demoRows`: sorted by
`source_user`, the later `alice` row having won. -/
def demoUsers : List (String × UserRec) :=
  [("alice",
    { source_user := "alice", source_host := "a1", source_port := "993",
      source_ssl := true, source_password := "pa1", dest_user := "alice2",
      dest_host := "a2", dest_port := "993", dest_ssl := false,
      dest_password := "pa2", extra_params := "-x" }),
   ("bob",
    { source_user := "bob", source_host := "h1", source_port := "993",
      source_ssl := true, source_password := "pw1", dest_user := "bob2",
      dest_host := "h2", dest_port := "143", dest_ssl := false,
      dest_password := "pw2", extra_params := "" })]

/-- Decidable equality for `Except`, so that concrete runs of the modelled
code can be checked by `decide`. -/
instance {ε α : Type} [DecidableEq ε] [DecidableEq α] :
    DecidableEq (Except ε α) := fun a b =>
  match a, b with
  | .ok x, .ok y =>
    if h : x = y then isTrue (by rw [h]) else isFalse (by simp [h])
  | .error x, .error y =>
    if h : x = y then isTrue (by rw [h]) else isFalse (by simp [h])
  | .ok _, .error _ => isFalse (by simp)
  | .error _, .ok _ => isFalse (by simp)

/-- A typical initial loop state for one configured user: one fresh task,
the initial snapshot of lines 328-335. -/
def aliceState : LoopState :=
  { jobs := [("alice", 0)]
    tasks := [{ started := false, total := none, completed := 0, eta := "?" }]
    snap := { running_jobs := 0, idle_users := 1, max_eta := "?",
              overall_total := none, overall_completed := 0 } }

/-- The syncing log line of the spec's scenario. -/
def sampleSyncLine : String :=
  "Host2: ETA: Mon 2024-01-01 10:00:00 +0000  30/100 msgs left"

/-
The claim theorems follow.  Throughout, a "line" is passed to the model as
`String.data` of a literal, and a marker file is a `(path, contents)` pair.
-/

/-- Claim C1 (code_bug): a line classified as syncing whose counts token has
`totalCount = 0` does not give `percent = 0`; with an ETA token present the
progress extraction raises `ZeroDivisionError` at the unguarded division of
line 245 of src/imapsync-status.py. -/
theorem imapsync_c1_zero_total_divides :
    get_sync_status ("Host ETA: Mon 2024-01-01 10:00:00 +0000  0/0 msgs left".data)
        = "syncing" ∧
    get_sync_progress ("Host ETA: Mon 2024-01-01 10:00:00 +0000  0/0 msgs left".data)
        = .error .zeroDivisionError := by
  constructor
  · decide
  · decide

/-- Claim C2 (code_bug): a line that matches the counts pattern but not the
ETA sub-pattern is classified syncing and `get_sync_progress` returns `None`,
but the aggregation step then subscripts that `None` (line 427) and the tick
fails with `TypeError` instead of proceeding without an ETA. -/
theorem imapsync_c2_counts_without_eta :
    get_sync_status ("Host2  5/10 msgs left".data) = "syncing" ∧
    get_sync_progress ("Host2  5/10 msgs left".data) = .ok none ∧
    tick 1 [("imapsync-alice.pid", "123\nlog1.txt\n")]
        [("log1.txt", "Host2  5/10 msgs left")] aliceState
      = .error .typeError := by
  refine ⟨by decide, by decide, by decide⟩

/-- Claim C4 (code_bug): a marker file in which the process-id and log-path
tokens cannot be located makes `parse_pid_file` raise `AttributeError`
(`None.group()`), and since the poll loop has no exception handling the tick
fails instead of skipping the job and retrying next tick. -/
theorem imapsync_c4_marker_corrupt_crashes :
    parse_pid_file ("imapsync-alice.pid".data) ("not a marker yet".data)
        = .error .attributeError ∧
    tick 1 [("imapsync-alice.pid", "not a marker yet")]
        [("log1.txt", "Host2  5/10 msgs left")] aliceState
      = .error .attributeError := by
  refine ⟨by decide, by decide⟩

/-- Claim C5 (code_bug): when a job's log file is momentarily absent,
`get_last_line`'s `subprocess.check_output(['tail', '-1', ...])` raises
`CalledProcessError` and the unprotected steady-state loop fails,
instead of preserving the previous sample and continuing. -/
theorem imapsync_c5_missing_log_crashes :
    tick 1 [("imapsync-alice.pid", "123\nmissing-log.txt")] [] aliceState
      = .error .calledProcessError := by
  decide

/-- Claim C7 (code_bug): the pid pattern `^[1-9]+$` of line 192 cannot match
any process id whose decimal form contains the digit 0, so a well-formed
marker with pid 10 makes `parse_pid_file` raise `AttributeError`; with a
0-free pid such as 123 the same marker parses fine. -/
theorem imapsync_c7_pid_with_zero_digit_fails :
    parse_pid_file ("imapsync-alice.pid".data) ("10\nimapsync-log.txt\n".data)
        = .error .attributeError ∧
    parse_pid_file ("imapsync-alice.pid".data) ("123\nimapsync-log.txt\n".data)
        = .ok { user := "alice", pid := "123",
                log_file_path := "imapsync-log.txt" } := by
  refine ⟨by decide, by decide⟩

/-- Claim C8 (code_bug): on a tick with a syncing job the loop body raises
`KeyError('user')` at the membership test `user in jobs['user']` of line 433,
before the maximum-ETA tracking (lines 447-451) and the fold (lines 453-483)
are reached, so the fold equations are not computed on every tick. -/
theorem imapsync_c8_fold_unreachable_on_sync :
    tick 1 [("imapsync-alice.pid", "123\nlog1.txt")]
        [("log1.txt", "Host2: ETA: Mon 2024-01-01 10:00:00 +0000  30/100 msgs left")]
        aliceState
      = .error (.keyError "user") := by
  decide

/-- Helper for claim C6: on any line where the ETA regex matches with counts
`r ≤ t`, `0 < t`, and an in-range timestamp, `get_sync_progress` returns the
expected sample. -/
theorem get_sync_progress_of_etaSearch (line d : List Char) (r t : Nat)
    (dt : PyDateTime) (h1 : etaSearch line = some (d, r, t))
    (h2 : strptime d = some dt) (hrt : r ≤ t) (ht : 0 < t) :
    get_sync_progress line =
      .ok (some { eta := dt,
                  transferred_messages := ((t - r : Nat) : Int),
                  total_messages := t, left_messages := r,
                  current_percentage := ((t - r : Nat) : ℚ) / (t : ℚ) * 100 }) := by
  have ht' : t ≠ 0 := Nat.pos_iff_ne_zero.mp ht
  simp only [get_sync_progress, h1, h2, if_neg ht']
  have e1 : ((t : Int) - (r : Int)) = ((t - r : Nat) : Int) :=
    (Nat.cast_sub hrt).symm
  rw [e1, Int.cast_natCast]

/-- Claim C6 (confirmed): for every valid syncing line with `r ≤ t`, `t > 0`
and a well-formed ETA token, the extraction yields
`transferred = t - r`, `total = t`, `percent = (t - r) / t * 100` and the
parsed datetime; concretely, the scenario line yields transferred 70,
total 100, percent 70, eta 2024-01-01 10:00:00, and state syncing. -/
theorem imapsync_c6_progress_extraction :
    (∀ (line d : List Char) (r t : Nat) (dt : PyDateTime),
        etaSearch line = some (d, r, t) → strptime d = some dt →
        r ≤ t → 0 < t →
        get_sync_progress line =
          .ok (some { eta := dt,
                      transferred_messages := ((t - r : Nat) : Int),
                      total_messages := t, left_messages := r,
                      current_percentage := ((t - r : Nat) : ℚ) / (t : ℚ) * 100 })) ∧
    get_sync_status sampleSyncLine.data = "syncing" ∧
    get_sync_progress sampleSyncLine.data =
      .ok (some { eta := ⟨2024, 1, 1, 10, 0, 0⟩, transferred_messages := 70,
                  total_messages := 100, left_messages := 30,
                  current_percentage := 70 }) := by
  refine ⟨get_sync_progress_of_etaSearch, by decide, ?_⟩
  have h1 : etaSearch sampleSyncLine.data =
      some ("2024-01-01 10:00:00".data, 30, 100) := by decide
  have h2 : strptime ("2024-01-01 10:00:00".data) =
      some ⟨2024, 1, 1, 10, 0, 0⟩ := by decide
  rw [get_sync_progress_of_etaSearch _ _ 30 100 _ h1 h2 (by norm_num)
    (by norm_num)]
  norm_num

/-- Witness for claim C6: the general conjunct applied to the concrete
scenario line, with all hypotheses discharged there. -/
theorem imapsync_c6_witness :
    get_sync_progress sampleSyncLine.data =
      .ok (some { eta := ⟨2024, 1, 1, 10, 0, 0⟩,
                  transferred_messages := ((100 - 30 : Nat) : Int),
                  total_messages := 100, left_messages := 30,
                  current_percentage := ((100 - 30 : Nat) : ℚ) / (100 : ℚ) * 100 }) :=
  imapsync_c6_progress_extraction.1 sampleSyncLine.data
    ("2024-01-01 10:00:00".data) 30 100 ⟨2024, 1, 1, 10, 0, 0⟩
    (by decide) (by decide) (by norm_num) (by norm_num)

/-- The membership test of line 433 never succeeds: `jobs['user']` raises
`KeyError` when no user is literally named `"user"`, and a membership test on
the stored `int` task index raises `TypeError` otherwise. -/
theorem jobsUserMembership_ne_ok (jobs : List (String × Nat)) (m : Bool) :
    jobsUserMembership jobs ≠ .ok m := by
  unfold jobsUserMembership
  cases lookupJobs jobs "user" <;> simp

/-- A tick-loop iteration does not depend on the incoming snapshot: the
snapshot fields are fully rewritten (or the iteration raises). -/
theorem tickStep_snap_indep (u : Nat) (fs : FileSys)
    (j : List (String × Nat)) (t : List RichTask) (s1 s2 : Snapshot)
    (me : Option PyDateTime) (pf : String × String) :
    tickStep u fs (⟨j, t, s1⟩, me) pf = tickStep u fs (⟨j, t, s2⟩, me) pf :=
  rfl

/-- A tick-loop iteration that does not raise leaves the jobs dictionary,
the task list and the tick-local maximum ETA unchanged, and rewrites the
snapshot with the fold of the (unchanged) task list. -/
theorem tickStep_ok_inv (u : Nat) (fs : FileSys)
    (st : LoopState × Option PyDateTime) (pf : String × String)
    (st' : LoopState × Option PyDateTime)
    (h : tickStep u fs st pf = .ok st') :
    st'.1.jobs = st.1.jobs ∧ st'.1.tasks = st.1.tasks ∧ st'.2 = st.2 ∧
    st'.1.snap = foldSnapshot u st.1.tasks st.2 := by
  simp only [tickStep] at h
  cases hp : parse_pid_file pf.1.data pf.2.data with
  | error e => simp only [hp] at h; exact absurd h (by simp)
  | ok ld =>
    simp only [hp] at h
    cases hl : get_last_line fs ld.log_file_path with
    | error e => simp only [hl] at h; exact absurd h (by simp)
    | ok line =>
      simp only [hl] at h
      by_cases hs : get_sync_status line = "syncing"
      · rw [if_pos hs] at h
        cases hg : get_sync_progress line with
        | error e => simp only [hg] at h; exact absurd h (by simp)
        | ok so =>
          simp only [hg] at h
          cases so with
          | none =>
            simp only [subscriptProgress] at h
            exact absurd h (by simp)
          | some sp =>
            simp only [subscriptProgress] at h
            cases hm : jobsUserMembership st.1.jobs with
            | error e => simp only [hm] at h; exact absurd h (by simp)
            | ok m => exact absurd hm (jobsUserMembership_ne_ok _ m)
      · rw [if_neg hs] at h
        injection h with h1
        subst h1
        exact ⟨rfl, rfl, rfl, rfl⟩

/-- Iterating `tickStep` over a list of marker files, when it does not raise,
leaves the jobs dictionary, the task list and the tick-local maximum ETA
unchanged. -/
theorem tickGo_ok_inv (u : Nat) (fs : FileSys) :
    ∀ (l : List (String × String)) (st st' : LoopState × Option PyDateTime),
      tickGo u fs l st = .ok st' →
      st'.1.jobs = st.1.jobs ∧ st'.1.tasks = st.1.tasks ∧ st'.2 = st.2
  | [], st, st', h => by
    simp only [tickGo] at h
    injection h with h1
    subst h1
    exact ⟨rfl, rfl, rfl⟩
  | pf :: rest, st, st', h => by
    simp only [tickGo] at h
    cases hs : tickStep u fs st pf with
    | error e => simp only [hs] at h; exact absurd h (by simp)
    | ok st1 =>
      simp only [hs] at h
      obtain ⟨a, b, c⟩ := tickGo_ok_inv u fs rest st1 st' h
      obtain ⟨a', b', c', _⟩ := tickStep_ok_inv u fs st pf st1 hs
      exact ⟨a.trans a', b.trans b', c.trans c'⟩

/-- Snapshot independence lifted to a nonempty marker-file list. -/
theorem tickGo_cons_snap_indep (u : Nat) (fs : FileSys)
    (pf : String × String) (rest : List (String × String))
    (j : List (String × Nat)) (t : List RichTask) (s1 s2 : Snapshot)
    (me : Option PyDateTime) :
    tickGo u fs (pf :: rest) (⟨j, t, s1⟩, me) =
      tickGo u fs (pf :: rest) (⟨j, t, s2⟩, me) := by
  simp only [tickGo]
  rw [tickStep_snap_indep u fs j t s1 s2 me pf]

/-- Claim C9 (confirmed): the per-tick aggregation is idempotent.  A tick
that returns a state (raises no exception) never modifies the jobs
dictionary or the task list — the syncing branch, the only writer, always
raises first — so re-running the tick on its own output with the same marker
files and file contents returns the identical state and snapshot. -/
theorem imapsync_c9_tick_idempotent (u : Nat) (p : List (String × String))
    (fs : FileSys) (ls ls' : LoopState) (h : tick u p fs ls = .ok ls') :
    tick u p fs ls' = .ok ls' := by
  cases p with
  | nil =>
    have hls : ls' = ls := by
      simp only [tick, tickGo] at h
      injection h with h1
      exact h1.symm
    subst hls
    exact h
  | cons pf rest =>
    simp only [tick] at h ⊢
    cases hg : tickGo u fs (pf :: rest) (ls, none) with
    | error e => simp only [hg] at h; exact absurd h (by simp)
    | ok st' =>
      simp only [hg] at h
      injection h with h1
      obtain ⟨hj, ht, _⟩ := tickGo_ok_inv u fs (pf :: rest) (ls, none) st' hg
      rw [h1] at hj ht
      have hind : tickGo u fs (pf :: rest) (ls', none) =
          tickGo u fs (pf :: rest) (ls, none) := by
        obtain ⟨j1, t1, s1⟩ := ls'
        obtain ⟨j0, t0, s0⟩ := ls
        have hj' : j1 = j0 := hj
        have ht' : t1 = t0 := ht
        subst hj'
        subst ht'
        exact tickGo_cons_snap_indep u fs pf rest j1 t1 s1 s0 none
      rw [hind]
      simp only [hg]
      rw [h1]

/-- Witness for claim C9: a concrete non-syncing tick, run twice. -/
theorem imapsync_c9_witness :
    tick 1 [("imapsync-alice.pid", "123\nlog1.txt")]
        [("log1.txt", "hello world")] aliceState
      = .ok { jobs := [("alice", 0)],
              tasks := [{ started := false, total := none, completed := 0,
                          eta := "?" }],
              snap := { running_jobs := 0, idle_users := 1, max_eta := "?",
                        overall_total := some 0, overall_completed := 0 } } ∧
    tick 1 [("imapsync-alice.pid", "123\nlog1.txt")]
        [("log1.txt", "hello world")]
        { jobs := [("alice", 0)],
          tasks := [{ started := false, total := none, completed := 0,
                      eta := "?" }],
          snap := { running_jobs := 0, idle_users := 1, max_eta := "?",
                    overall_total := some 0, overall_completed := 0 } }
      = .ok { jobs := [("alice", 0)],
              tasks := [{ started := false, total := none, completed := 0,
                          eta := "?" }],
              snap := { running_jobs := 0, idle_users := 1, max_eta := "?",
                        overall_total := some 0, overall_completed := 0 } } :=
  ⟨by decide, imapsync_c9_tick_idempotent 1 _ _ aliceState _ (by decide)⟩

/-- Splitting on newlines, a newline-free character list is a single line. -/
theorem splitOnNl_of_not_mem (l : List Char) (h : '\n' ∉ l) :
    splitOnNl l = [l] := by
  induction l with
  | nil => rfl
  | cons c rest ih =>
    have hc : ¬ c = '\n' := fun hh => h (hh ▸ List.mem_cons_self c rest)
    have hr : '\n' ∉ rest := fun hh => h (List.mem_cons_of_mem c hh)
    simp [splitOnNl, hc, ih hr]

/-- The last line of a newline-free character list is the list itself. -/
theorem lastLine_of_not_mem (l : List Char) (h : '\n' ∉ l) :
    lastLine l = l := by
  have hg : ¬ l.getLast? = some '\n' := by
    intro hh
    apply h
    obtain ⟨hne, hEq⟩ := List.mem_getLast?_eq_getLast
      (show '\n' ∈ l.getLast? from by rw [Option.mem_def, hh])
    rw [hEq]
    exact List.getLast_mem hne
  simp [lastLine, hg, splitOnNl_of_not_mem l h]

/-- Claim C3 (counterexample to the claim as stated): on a line with
malformed numeric tokens the classifier returns the catch-all `"running"`;
there is no distinct unparseable classification in the code. -/
theorem imapsync_c3_counterexample :
    get_sync_status ("abc/def msgs left".data) = "running" ∧
    get_sync_status ("abc/def msgs left".data) ≠ "unparseable" := by
  refine ⟨by decide, by decide⟩

/-- Claim C3 (amended): a line with malformed numeric tokens fails the
counts pattern (concretely, `"abc/def msgs left"` does); every line that
fails the counts pattern classifies as `"running"` — the code's only
fallback, with no distinct unparseable state — classification never raises,
and the tick leaves the job's previous task numbers (and all task state)
unchanged, only refolding the snapshot. -/
theorem imapsync_c3_running_fallback :
    countsSearch ("abc/def msgs left".data) = none ∧
    (∀ line : List Char, countsSearch line = none →
      get_sync_status line = "running") ∧
    (∀ line : List Char, countsSearch line = none → '\n' ∉ line →
      ∀ (u : Nat) (ls : LoopState),
        tick u [("imapsync-alice.pid", "123\nlog1.txt")]
            [("log1.txt", String.mk line)] ls
          = .ok { jobs := ls.jobs, tasks := ls.tasks,
                  snap := foldSnapshot u ls.tasks none }) := by
  refine ⟨by decide, ?_, ?_⟩
  · intro line hcs
    simp [get_sync_status, hcs]
  · intro line hcs hnl u ls
    have hp : parse_pid_file ("imapsync-alice.pid".data) ("123\nlog1.txt".data)
        = .ok { user := "alice", pid := "123", log_file_path := "log1.txt" } := by
      decide
    have hl : get_last_line [("log1.txt", String.mk line)] "log1.txt"
        = .ok line := by
      show Except.ok (lastLine line) = Except.ok line
      rw [lastLine_of_not_mem line hnl]
    have hs : get_sync_status line = "running" := by
      simp [get_sync_status, hcs]
    simp only [tick, tickGo, tickStep, hp, hl, hs]
    rw [if_neg (by decide : ¬ ("running" : String) = "syncing")]

/-- Witness for claim C3: the amended statement applied to the concrete
malformed line, previous state `aliceState`. -/
theorem imapsync_c3_witness :
    get_sync_status ("abc/def msgs left".data) = "running" ∧
    tick 1 [("imapsync-alice.pid", "123\nlog1.txt")]
        [("log1.txt", String.mk ("abc/def msgs left".data))] aliceState
      = .ok { jobs := aliceState.jobs, tasks := aliceState.tasks,
              snap := foldSnapshot 1 aliceState.tasks none } :=
  ⟨imapsync_c3_running_fallback.2.1 ("abc/def msgs left".data) (by decide),
   imapsync_c3_running_fallback.2.2 ("abc/def msgs left".data) (by decide)
     (by decide) 1 aliceState⟩

/-- Strict lexicographic comparison is asymmetric. -/
theorem lexLt_asymm : ∀ (a b : List Char),
    lexLt a b = true → lexLt b a = false
  | [], [], h => by simp [lexLt] at h
  | [], _ :: _, _ => by simp [lexLt]
  | _ :: _, [], h => by simp [lexLt] at h
  | a :: as, b :: bs, h => by
    simp only [lexLt] at h ⊢
    by_cases hab : a < b
    · rw [if_neg (lt_asymm hab), if_pos hab]
    · rw [if_neg hab] at h
      by_cases hba : b < a
      · rw [if_pos hba] at h
        exact absurd h (by simp)
      · rw [if_neg hba] at h
        rw [if_neg hba, if_neg hab]
        exact lexLt_asymm as bs h

/-- Strict lexicographic comparison is transitive. -/
theorem lexLt_trans : ∀ (a b c : List Char),
    lexLt a b = true → lexLt b c = true → lexLt a c = true
  | [], [], _, h1, _ => by simp [lexLt] at h1
  | [], _ :: _, [], _, h2 => by simp [lexLt] at h2
  | [], _ :: _, _ :: _, _, _ => by simp [lexLt]
  | _ :: _, [], _, h1, _ => by simp [lexLt] at h1
  | _ :: _, _ :: _, [], _, h2 => by simp [lexLt] at h2
  | a :: as, b :: bs, c :: cs, h1, h2 => by
    simp only [lexLt] at h1 h2 ⊢
    by_cases hab : a < b
    · by_cases hbc : b < c
      · rw [if_pos (lt_trans hab hbc)]
      · rw [if_neg hbc] at h2
        by_cases hcb : c < b
        · rw [if_pos hcb] at h2
          exact absurd h2 (by simp)
        · have hbceq : b = c := le_antisymm (not_lt.mp hcb) (not_lt.mp hbc)
          rw [if_pos (hbceq ▸ hab)]
    · rw [if_neg hab] at h1
      by_cases hba : b < a
      · rw [if_pos hba] at h1
        exact absurd h1 (by simp)
      · rw [if_neg hba] at h1
        have habeq : a = b := le_antisymm (not_lt.mp hba) (not_lt.mp hab)
        subst habeq
        by_cases hac : a < c
        · rw [if_pos hac]
        · rw [if_neg hac] at h2 ⊢
          by_cases hca : c < a
          · rw [if_pos hca] at h2
            exact absurd h2 (by simp)
          · rw [if_neg hca] at h2 ⊢
            exact lexLt_trans as bs cs h1 h2

/-- Two lists neither of which is lexicographically below the other are
equal. -/
theorem lexLt_false_antisymm : ∀ (a b : List Char),
    lexLt a b = false → lexLt b a = false → a = b
  | [], [], _, _ => rfl
  | [], _ :: _, h1, _ => by simp [lexLt] at h1
  | _ :: _, [], _, h2 => by simp [lexLt] at h2
  | a :: as, b :: bs, h1, h2 => by
    simp only [lexLt] at h1 h2
    by_cases hab : a < b
    · rw [if_pos hab] at h1
      exact absurd h1 (by simp)
    · rw [if_neg hab] at h1
      by_cases hba : b < a
      · rw [if_pos hba] at h2
        exact absurd h2 (by simp)
      · rw [if_neg hba] at h1
        rw [if_neg hba, if_neg hab] at h2
        have hEq : a = b := le_antisymm (not_lt.mp hba) (not_lt.mp hab)
        rw [hEq, lexLt_false_antisymm as bs h1 h2]

/-- Strings whose underlying character lists agree are equal. -/
theorem string_data_inj (s t : String) (h : s.data = t.data) : s = t := by
  cases s
  cases t
  exact congrArg String.mk h

/-- `insertByKey` only repositions the inserted entry. -/
theorem insertByKey_perm (e : String × UserRec) :
    ∀ l, (insertByKey e l).Perm (e :: l)
  | [] => List.Perm.refl _
  | x :: xs => by
    simp only [insertByKey]
    split
    · exact List.Perm.refl _
    · exact ((insertByKey_perm e xs).cons x).trans (List.Perm.swap e x xs)

/-- Folding `insertByKey` over a list permutes the accumulated entries. -/
theorem sortByKey_foldl_perm :
    ∀ (l acc : List (String × UserRec)),
      (l.foldl (fun acc e => insertByKey e acc) acc).Perm (acc ++ l)
  | [], acc => by simp
  | e :: rest, acc => by
    simp only [List.foldl]
    refine (sortByKey_foldl_perm rest (insertByKey e acc)).trans ?_
    refine (((insertByKey_perm e acc).append_right rest)).trans ?_
    exact List.perm_middle.symm

/-- `sortByKey` is a permutation. -/
theorem sortByKey_perm (l : List (String × UserRec)) :
    (sortByKey l).Perm l := by
  simpa using sortByKey_foldl_perm l []

/-- Inserting into a list that is sorted by key (non-strictly: no later
entry's key is lexicographically below an earlier one) keeps it sorted. -/
theorem insertByKey_pairwise_le (e : String × UserRec) :
    ∀ l, List.Pairwise (fun a b => lexLt b.1.data a.1.data = false) l →
      List.Pairwise (fun a b => lexLt b.1.data a.1.data = false)
        (insertByKey e l)
  | [], _ => List.pairwise_singleton _ _
  | x :: xs, hp => by
    obtain ⟨hx, hxs⟩ := List.pairwise_cons.mp hp
    simp only [insertByKey]
    split
    case isTrue hlt =>
      refine List.pairwise_cons.mpr ⟨?_, hp⟩
      intro y hy
      rcases List.mem_cons.mp hy with rfl | hy'
      · exact lexLt_asymm _ _ hlt
      · cases hb : lexLt y.1.data e.1.data with
        | false => rfl
        | true =>
          have := lexLt_trans _ _ _ hb hlt
          rw [hx y hy'] at this
          exact absurd this (by simp)
    case isFalse hnlt =>
      refine List.pairwise_cons.mpr
        ⟨?_, insertByKey_pairwise_le e xs hxs⟩
      intro y hy
      have hy' : y ∈ e :: xs := (insertByKey_perm e xs).mem_iff.mp hy
      rcases List.mem_cons.mp hy' with rfl | hyy
      · simpa [strLt] using hnlt
      · exact hx y hyy

/-- `sortByKey` sorts by key, non-strictly. -/
theorem sortByKey_pairwise_le (l : List (String × UserRec)) :
    List.Pairwise (fun a b => lexLt b.1.data a.1.data = false)
      (sortByKey l) := by
  suffices hgen : ∀ (l acc : List (String × UserRec)),
      List.Pairwise (fun a b => lexLt b.1.data a.1.data = false) acc →
      List.Pairwise (fun a b => lexLt b.1.data a.1.data = false)
        (l.foldl (fun acc e => insertByKey e acc) acc) by
    exact hgen l [] List.Pairwise.nil
  intro l
  induction l with
  | nil => intro acc h; exact h
  | cons e rest ih =>
    intro acc h
    exact ih (insertByKey e acc) (insertByKey_pairwise_le e acc h)

/-- A Python dict assignment keeps the keys pairwise distinct. -/
theorem pyDictInsert_pairwise_ne (users : List (String × UserRec))
    (k : String) (v : UserRec)
    (h : List.Pairwise (fun a b => a.1 ≠ b.1) users) :
    List.Pairwise (fun a b => a.1 ≠ b.1) (pyDictInsert users k v) := by
  unfold pyDictInsert
  split
  case isTrue hin =>
    have hkey : ∀ e : String × UserRec,
        (if e.1 == k then (k, v) else e).1 = e.1 := by
      intro e
      split
      case isTrue hh => exact (eq_of_beq hh).symm
      case isFalse => rfl
    rw [List.pairwise_map]
    refine h.imp ?_
    intro a b hab
    rw [hkey a, hkey b]
    exact hab
  case isFalse hnin =>
    refine List.pairwise_append.mpr
      ⟨h, List.pairwise_singleton _ _, ?_⟩
    intro a ha b hb
    have hb' : b = (k, v) := List.mem_singleton.mp hb
    subst hb'
    intro hEq
    exact hnin (List.any_eq_true.mpr ⟨a, ha, beq_iff_eq.mpr hEq⟩)

/-- The row loop keeps the accumulated dict's keys pairwise distinct. -/
theorem status_parse_rows_pairwise_ne (skip : Bool) :
    ∀ (rows : List (List String)) (n : Nat)
      (users m : List (String × UserRec)),
      List.Pairwise (fun a b => a.1 ≠ b.1) users →
      status_parse_rows skip rows n users = .ok m →
      List.Pairwise (fun a b => a.1 ≠ b.1) m
  | [], _, users, m, hu, h => by
    simp only [status_parse_rows] at h
    injection h with h1
    subst h1
    exact hu
  | row :: rest, n, users, m, hu, h => by
    simp only [status_parse_rows] at h
    split at h
    · exact status_parse_rows_pairwise_ne skip rest (n + 1) users m hu h
    · cases hr : status_parse_row row with
      | error e => simp only [hr] at h; exact absurd h (by simp)
      | ok su =>
        simp only [hr] at h
        exact status_parse_rows_pairwise_ne skip rest (n + 1) _ m
          (pyDictInsert_pairwise_ne users su.1 su.2 hu) h

/-- The two `value2bool` copies are the same function. -/
theorem value2bool_eq : status_value2bool = launcher_value2bool := rfl

/-- The two per-row extractions are the same function. -/
theorem parse_row_eq : status_parse_row = launcher_parse_row := rfl

/-- The two row loops agree on every input. -/
theorem parse_rows_eq (skip : Bool) :
    ∀ (rows : List (List String)) (n : Nat)
      (users : List (String × UserRec)),
      status_parse_rows skip rows n users =
        launcher_parse_rows skip rows n users
  | [], _, _ => rfl
  | row :: rest, n, users => by
    simp only [status_parse_rows, launcher_parse_rows, ← parse_row_eq]
    split
    · exact parse_rows_eq skip rest (n + 1) users
    · cases status_parse_row row with
      | error e => rfl
      | ok su => exact parse_rows_eq skip rest (n + 1) _

/-- Claim C10 (confirmed): the launcher's and the status tool's CSV parsers
agree on every input (they are extensionally equal), the produced user map
has pairwise distinct keys in strictly ascending `source_user` order, and on
a concrete input with an out-of-order user and a duplicated key the last
duplicate row wins with the SSL fields coerced to booleans. -/
theorem imapsync_c10_csv_parsers_agree :
    (∀ (rows : List (List String)) (skip : Bool),
        status_parse_csv_file rows skip = launcher_parse_csv_file rows skip) ∧
    (∀ (rows : List (List String)) (skip : Bool)
        (m : List (String × UserRec)),
        status_parse_csv_file rows skip = .ok m →
        List.Pairwise (fun a b => strLt a.1 b.1 = true) m) ∧
    status_parse_csv_file demoRows false = .ok demoUsers ∧
    launcher_parse_csv_file demoRows false = .ok demoUsers := by
  have hEq : ∀ (rows : List (List String)) (skip : Bool),
      status_parse_csv_file rows skip = launcher_parse_csv_file rows skip := by
    intro rows skip
    simp only [status_parse_csv_file, launcher_parse_csv_file,
      parse_rows_eq skip rows 0 []]
  have hdemo : status_parse_csv_file demoRows false = .ok demoUsers := by
    decide
  refine ⟨hEq, ?_, hdemo, (hEq demoRows false).symm.trans hdemo⟩
  intro rows skip m h
  simp only [status_parse_csv_file] at h
  cases hr : status_parse_rows skip rows 0 [] with
  | error e => simp only [hr] at h; exact absurd h (by simp)
  | ok users =>
    simp only [hr] at h
    injection h with h1
    subst h1
    have hne : List.Pairwise (fun a b => a.1 ≠ b.1) users :=
      status_parse_rows_pairwise_ne skip rows 0 [] users List.Pairwise.nil hr
    have hne' : List.Pairwise (fun a b => a.1 ≠ b.1) (sortByKey users) :=
      ((sortByKey_perm users).pairwise_iff
        (fun hab => Ne.symm hab)).mpr hne
    have hle := sortByKey_pairwise_le users
    refine (hne'.and hle).imp ?_
    intro a b hab
    obtain ⟨hne2, hle2⟩ := hab
    cases hb : lexLt a.1.data b.1.data with
    | true => exact hb
    | false =>
      exact absurd
        (string_data_inj a.1 b.1 (lexLt_false_antisymm _ _ hb hle2))
        hne2

/-- Witness for claim C10: the sortedness conjunct applied to the concrete
demonstration input, hypothesis discharged there. -/
theorem imapsync_c10_witness :
    List.Pairwise (fun a b => strLt a.1 b.1 = true) demoUsers :=
  imapsync_c10_csv_parsers_agree.2.1 demoRows false demoUsers (by decide)

end ImapsyncModel
